import Mathlib

/-!
# Verification of the collision index (`src/symbol/collision_index.js`)

This file gives a shallow embedding of the collision-avoidance engine of the
repository: the `CollisionIndex` class of `src/symbol/collision_index.js`,
together with the parts of its collaborators that its behaviour depends on.
JavaScript numbers are modelled by real numbers (ignoring floating-point
rounding); JavaScript arrays of numbers by `List ℝ`; booleans by `Bool`;
boolean-valued tests whose value feeds into `if`-conditions by `Prop`.

External collaborators that are part of the repository but whose sources are
not available here (the spatial grid `./grid_index`, the projection helpers
`../symbol/projection`, and `../util/intersection_tests`) are modelled from
the specification; each such definition carries a doc comment starting with
`Modelled from the spec:`.
-/

noncomputable section

open Classical

/-- The 2D point class of the `@mapbox/point-geometry` dependency: a pair of
coordinates with vector arithmetic (`add`, `sub`, `mult`, `div`, `mag`,
`dist`), exactly the operations `collision_index.js` uses. -/
structure Point where
  x : ℝ
  y : ℝ
deriving DecidableEq

/-- Pointwise addition, `Point.prototype.add`. -/
def Point.add (p q : Point) : Point := ⟨p.x + q.x, p.y + q.y⟩

/-- Pointwise subtraction, `Point.prototype.sub`. -/
def Point.sub (p q : Point) : Point := ⟨p.x - q.x, p.y - q.y⟩

/-- Scalar multiplication, `Point.prototype.mult`. -/
def Point.mult (p : Point) (k : ℝ) : Point := ⟨p.x * k, p.y * k⟩

/-- Scalar division, `Point.prototype.div`. -/
def Point.div (p : Point) (k : ℝ) : Point := ⟨p.x / k, p.y / k⟩

/-- Euclidean magnitude, `Point.prototype.mag`: `sqrt(x*x + y*y)`. -/
def Point.mag (p : Point) : ℝ := Real.sqrt (p.x * p.x + p.y * p.y)

/-- Euclidean distance, `Point.prototype.dist`. -/
def Point.dist (p q : Point) : ℝ := (p.sub q).mag

/-- A 4×4 matrix in gl-matrix column-major layout (`m0` is column 0 row 0,
`m3` is column 0 row 3, `m15` is column 3 row 3). -/
structure Mat4 where
  m0 : ℝ
  m1 : ℝ
  m2 : ℝ
  m3 : ℝ
  m4 : ℝ
  m5 : ℝ
  m6 : ℝ
  m7 : ℝ
  m8 : ℝ
  m9 : ℝ
  m10 : ℝ
  m11 : ℝ
  m12 : ℝ
  m13 : ℝ
  m14 : ℝ
  m15 : ℝ

/-- The identity matrix, used for concrete scenarios. -/
def Mat4.identity : Mat4 := ⟨1, 0, 0, 0, 0, 1, 0, 0, 0, 0, 1, 0, 0, 0, 0, 1⟩

/-- Modelled from the spec: `projection.xyTransformMat4` of
`src/symbol/projection.js` (not under `src/` here) transforms the tile-local
point `[x, y, 0, 1]` by the matrix, yielding the homogeneous coordinates
`(p0, p1, p3)`; the spec (§4.1) says the adapter "transforms the tile-local
point by the matrix, yielding homogeneous `w`". Only components 0, 1 and 3
are used by the collision index. -/
def xyTransformMat4 (m : Mat4) (x y : ℝ) : ℝ × ℝ × ℝ :=
  (m.m0 * x + m.m4 * y + m.m12,
   m.m1 * x + m.m5 * y + m.m13,
   m.m3 * x + m.m7 * y + m.m15)

/-- The homogeneous `w` produced by transforming `[x, y, 0, 1]` by `m`. -/
def clipSpaceW (m : Mat4) (x y : ℝ) : ℝ := (xyTransformMat4 m x y).2.2

/-- The feature key stored at every spatial-index entry:
`{bucketInstanceId, featureIndex, collisionGroupID}`
(see `insertCollisionBox`/`insertCollisionCircles`). -/
structure GridKey where
  bucketInstanceId : ℕ
  featureIndex : ℕ
  collisionGroupID : ℕ
deriving DecidableEq

/-- Geometry of a spatial-index entry: an axis-aligned box or a circle. -/
inductive GridGeom where
  | box (x1 y1 x2 y2 : ℝ)
  | circle (cx cy r : ℝ)

/-- Closed axis-aligned box overlap test, the collision semantics of the
grid's box entries. -/
def boxesIntersect (ax1 ay1 ax2 ay2 bx1 by1 bx2 by2 : ℝ) : Prop :=
  ax1 ≤ bx2 ∧ bx1 ≤ ax2 ∧ ay1 ≤ by2 ∧ by1 ≤ ay2

/-- Squared distance from a point to an axis-aligned box (zero when the point
is inside the box). -/
def pointBoxDistSq (px py x1 y1 x2 y2 : ℝ) : ℝ :=
  (max (x1 - px) (max 0 (px - x2))) ^ 2 + (max (y1 - py) (max 0 (py - y2))) ^ 2

/-- Circle-vs-box overlap: the box comes within the circle's radius of the
center. -/
def circleBoxIntersect (cx cy r x1 y1 x2 y2 : ℝ) : Prop :=
  pointBoxDistSq cx cy x1 y1 x2 y2 ≤ r ^ 2

/-- Circle-vs-circle overlap via squared distances. -/
def circlesIntersect (ax ay ar bx by_ br : ℝ) : Prop :=
  (ax - bx) ^ 2 + (ay - by_) ^ 2 ≤ (ar + br) ^ 2

/-- Does a grid entry's geometry overlap a query box? -/
def GridGeom.intersectsBox (g : GridGeom) (x1 y1 x2 y2 : ℝ) : Prop :=
  match g with
  | .box bx1 by1 bx2 by2 => boxesIntersect bx1 by1 bx2 by2 x1 y1 x2 y2
  | .circle cx cy r => circleBoxIntersect cx cy r x1 y1 x2 y2

/-- Does a grid entry's geometry overlap a query circle? -/
def GridGeom.intersectsCircle (g : GridGeom) (cx cy r : ℝ) : Prop :=
  match g with
  | .box bx1 by1 bx2 by2 => circleBoxIntersect cx cy r bx1 by1 bx2 by2
  | .circle bx by_ br => circlesIntersect bx by_ br cx cy r

/-- The axis-aligned bounding box of an entry's geometry; the grid's `query`
reports circles by their bounding box. -/
def GridGeom.bbox : GridGeom → ℝ × ℝ × ℝ × ℝ
  | .box x1 y1 x2 y2 => (x1, y1, x2, y2)
  | .circle cx cy r => (cx - r, cy - r, cx + r, cy + r)

/-- One keyed entry of the spatial grid. -/
structure GridEntry where
  key : GridKey
  geom : GridGeom

/-- Modelled from the spec: the spatial grid of `./grid_index` (not under
`src/` here), §2 and §6 of the spec: a "bulk-mutable 2D spatial index
supporting insertion of axis-aligned boxes and circles tagged with an opaque
key, and range queries returning all entries intersecting a query box; also
supports does-this-box/circle-intersect-anything existence queries with an
optional predicate filter". Modelled as the list of inserted entries in
insertion order. -/
structure Grid where
  entries : List GridEntry

/-- A freshly constructed, empty grid. -/
def Grid.empty : Grid := ⟨[]⟩

/-- Modelled from the spec: `insert(key, x1, y1, x2, y2)` appends a box entry. -/
def Grid.insert (g : Grid) (key : GridKey) (x1 y1 x2 y2 : ℝ) : Grid :=
  ⟨g.entries ++ [⟨key, .box x1 y1 x2 y2⟩]⟩

/-- Modelled from the spec: `insertCircle(key, x, y, r)` appends a circle
entry. -/
def Grid.insertCircle (g : Grid) (key : GridKey) (x y r : ℝ) : Grid :=
  ⟨g.entries ++ [⟨key, .circle x y r⟩]⟩

/-- Modelled from the spec: `hitTest(x1, y1, x2, y2, predicate)` — does any
entry accepted by the predicate overlap the query box? -/
def Grid.hitTest (g : Grid) (x1 y1 x2 y2 : ℝ) (pred : GridKey → Prop) : Prop :=
  ∃ e ∈ g.entries, pred e.key ∧ e.geom.intersectsBox x1 y1 x2 y2

/-- Modelled from the spec: `hitTestCircle(x, y, r, predicate)` — does any
entry accepted by the predicate overlap the query circle? -/
def Grid.hitTestCircle (g : Grid) (x y r : ℝ) (pred : GridKey → Prop) : Prop :=
  ∃ e ∈ g.entries, pred e.key ∧ e.geom.intersectsCircle x y r

/-- Modelled from the spec: `keysLength()` — how many entries the grid holds. -/
def Grid.keysLength (g : Grid) : ℕ := g.entries.length

/-- An entry as reported by the grid's range `query`: its key and the
bounding rectangle of its geometry. -/
structure GridQueryResult where
  key : GridKey
  x1 : ℝ
  y1 : ℝ
  x2 : ℝ
  y2 : ℝ

/-- Bounding-box view of an entry, as `query` reports it. -/
def GridEntry.toQueryResult (e : GridEntry) : GridQueryResult :=
  match e.geom.bbox with
  | (x1, y1, x2, y2) => ⟨e.key, x1, y1, x2, y2⟩

/-- Modelled from the spec: `query(x1, y1, x2, y2)` returns every entry whose
bounding rectangle overlaps the query box, in insertion order. -/
def Grid.query (g : Grid) (x1 y1 x2 y2 : ℝ) : List GridQueryResult :=
  (g.entries.filter (fun e =>
    decide (boxesIntersect e.toQueryResult.x1 e.toQueryResult.y1
      e.toQueryResult.x2 e.toQueryResult.y2 x1 y1 x2 y2))).map GridEntry.toQueryResult

/-- The camera-transform snapshot consumed by the constructor of
`CollisionIndex`: `transform.width`, `transform.height`,
`transform.cameraToCenterDistance` and `transform._pitch`. -/
structure Transform where
  width : ℝ
  height : ℝ
  cameraToCenterDistance : ℝ
  pitch : ℝ

/-- The constant `viewportPadding = 100` of `collision_index.js`. -/
def viewportPadding : ℝ := 100

/-- The `CollisionIndex` class: the transform snapshot plus the two grids
(`grid` for occlusion, `ignoredGrid` for placements exempt from occlusion). -/
structure CollisionIndex where
  transform : Transform
  grid : Grid
  ignoredGrid : Grid

/-- Constructor field `screenRightBoundary = transform.width + viewportPadding`. -/
def CollisionIndex.screenRightBoundary (c : CollisionIndex) : ℝ :=
  c.transform.width + viewportPadding

/-- Constructor field `screenBottomBoundary = transform.height + viewportPadding`. -/
def CollisionIndex.screenBottomBoundary (c : CollisionIndex) : ℝ :=
  c.transform.height + viewportPadding

/-- Constructor field `gridRightBoundary = transform.width + 2 * viewportPadding`. -/
def CollisionIndex.gridRightBoundary (c : CollisionIndex) : ℝ :=
  c.transform.width + 2 * viewportPadding

/-- Constructor field `gridBottomBoundary = transform.height + 2 * viewportPadding`. -/
def CollisionIndex.gridBottomBoundary (c : CollisionIndex) : ℝ :=
  c.transform.height + 2 * viewportPadding

/-- Constructor field `pitchfactor = cos(transform._pitch) * cameraToCenterDistance`. -/
def CollisionIndex.pitchfactor (c : CollisionIndex) : ℝ :=
  Real.cos c.transform.pitch * c.transform.cameraToCenterDistance

/-- `isOffscreen(x1, y1, x2, y2)`: the rectangle lies wholly outside the
unpadded viewport. Note the asymmetry of the far sides: `x1 >=
screenRightBoundary` but `y1 > screenBottomBoundary`. -/
def CollisionIndex.isOffscreen (c : CollisionIndex) (x1 y1 x2 y2 : ℝ) : Prop :=
  x2 < viewportPadding ∨ x1 ≥ c.screenRightBoundary ∨
    y2 < viewportPadding ∨ y1 > c.screenBottomBoundary

/-- `isInsideGrid(x1, y1, x2, y2)`: the rectangle touches the padded grid. -/
def CollisionIndex.isInsideGrid (c : CollisionIndex) (x1 y1 x2 y2 : ℝ) : Prop :=
  x2 ≥ 0 ∧ x1 < c.gridRightBoundary ∧ y2 ≥ 0 ∧ y1 < c.gridBottomBoundary

/-- Result of `projectAnchor`. -/
structure ProjectedAnchor where
  perspectiveRatio : ℝ
  cameraDistance : ℝ

/-- `projectAnchor(posMatrix, x, y)`: transform `[x, y, 0, 1]` and return the
perspective ratio `0.5 + 0.5 * (cameraToCenterDistance / p[3])` together with
`cameraDistance = p[3]`. -/
def CollisionIndex.projectAnchor (c : CollisionIndex) (posMatrix : Mat4) (x y : ℝ) :
    ProjectedAnchor :=
  let p := xyTransformMat4 posMatrix x y
  ⟨0.5 + 0.5 * (c.transform.cameraToCenterDistance / p.2.2), p.2.2⟩

/-- `projectPoint(posMatrix, x, y)`: clip coordinates to padded-grid pixels,
with the Y axis flipped. -/
def CollisionIndex.projectPoint (c : CollisionIndex) (posMatrix : Mat4) (x y : ℝ) : Point :=
  let p := xyTransformMat4 posMatrix x y
  ⟨(p.1 / p.2.2 + 1) / 2 * c.transform.width + viewportPadding,
   (-p.2.1 / p.2.2 + 1) / 2 * c.transform.height + viewportPadding⟩

/-- Result of `projectAndGetPerspectiveRatio`. -/
structure ProjectedPoint where
  point : Point
  perspectiveRatio : ℝ

/-- `projectAndGetPerspectiveRatio(posMatrix, x, y)`: both the padded-grid
point and the perspective ratio in one pass. -/
def CollisionIndex.projectAndGetPerspectiveRatio (c : CollisionIndex) (posMatrix : Mat4)
    (x y : ℝ) : ProjectedPoint :=
  let p := xyTransformMat4 posMatrix x y
  ⟨⟨(p.1 / p.2.2 + 1) / 2 * c.transform.width + viewportPadding,
    (-p.2.1 / p.2.2 + 1) / 2 * c.transform.height + viewportPadding⟩,
   0.5 + 0.5 * (c.transform.cameraToCenterDistance / p.2.2)⟩

/-- The `SingleCollisionBox` data consumed by `placeCollisionBox`: tile-local
corner offsets `(x1, y1, x2, y2)` and the anchor point. -/
structure SingleCollisionBox where
  x1 : ℝ
  y1 : ℝ
  x2 : ℝ
  y2 : ℝ
  anchorPointX : ℝ
  anchorPointY : ℝ

/-- The projected grid rectangle `(tlX, tlY, brX, brY)` computed at the top
of `placeCollisionBox`. -/
structure ProjRect where
  tlX : ℝ
  tlY : ℝ
  brX : ℝ
  brY : ℝ

/-- The first half of `placeCollisionBox`: project the anchor, scale the
tile-local corners by `textPixelRatio * perspectiveRatio` and translate by
the projected anchor. -/
def CollisionIndex.projectedBoxRect (c : CollisionIndex) (collisionBox : SingleCollisionBox)
    (textPixelRatio : ℝ) (posMatrix : Mat4) : ProjRect :=
  let projectedPoint := c.projectAndGetPerspectiveRatio posMatrix
    collisionBox.anchorPointX collisionBox.anchorPointY
  let tileToViewport := textPixelRatio * projectedPoint.perspectiveRatio
  ⟨collisionBox.x1 * tileToViewport + projectedPoint.point.x,
   collisionBox.y1 * tileToViewport + projectedPoint.point.y,
   collisionBox.x2 * tileToViewport + projectedPoint.point.x,
   collisionBox.y2 * tileToViewport + projectedPoint.point.y⟩

/-- Return value of `placeCollisionBox`: `{box: Array<number>, offscreen:
boolean}`. -/
structure PlacedBox where
  box : List ℝ
  offscreen : Prop

/-- `placeCollisionBox(collisionBox, allowOverlap, textPixelRatio, posMatrix,
collisionGroupPredicate)`: reject (empty box, `offscreen = false`) when the
projected rectangle misses the padded grid, or when overlap is disallowed and
the occlusion grid hit-tests positive under the group predicate; otherwise
return the rectangle and its offscreen flag. -/
def CollisionIndex.placeCollisionBox (c : CollisionIndex) (collisionBox : SingleCollisionBox)
    (allowOverlap : Bool) (textPixelRatio : ℝ) (posMatrix : Mat4)
    (collisionGroupPredicate : GridKey → Prop) : PlacedBox :=
  let r := c.projectedBoxRect collisionBox textPixelRatio posMatrix
  if ¬ c.isInsideGrid r.tlX r.tlY r.brX r.brY ∨
      (allowOverlap = false ∧ c.grid.hitTest r.tlX r.tlY r.brX r.brY collisionGroupPredicate) then
    ⟨[], False⟩
  else
    ⟨[r.tlX, r.tlY, r.brX, r.brY], c.isOffscreen r.tlX r.tlY r.brX r.brY⟩

/-- `insertCollisionBox(collisionBox, ignorePlacement, bucketInstanceId,
featureIndex, collisionGroupID)`: insert the box into the occlusion grid or
the ignored grid under the feature key. -/
def CollisionIndex.insertCollisionBox (c : CollisionIndex) (collisionBox : List ℝ)
    (ignorePlacement : Bool) (bucketInstanceId featureIndex collisionGroupID : ℕ) :
    CollisionIndex :=
  let key : GridKey := ⟨bucketInstanceId, featureIndex, collisionGroupID⟩
  let b0 := collisionBox.getD 0 0
  let b1 := collisionBox.getD 1 0
  let b2 := collisionBox.getD 2 0
  let b3 := collisionBox.getD 3 0
  if ignorePlacement then
    { c with ignoredGrid := c.ignoredGrid.insert key b0 b1 b2 b3 }
  else
    { c with grid := c.grid.insert key b0 b1 b2 b3 }

/-- The per-circle insertion loop of `insertCollisionCircles`: one grid entry
per stored 4-tuple `(cx, cy, radius, usedFlag)`. -/
def insertCirclesLoop (g : Grid) (key : GridKey) : List ℝ → Grid
  | cx :: cy :: r :: _flag :: rest => insertCirclesLoop (g.insertCircle key cx cy r) key rest
  | _ => g

/-- `insertCollisionCircles(collisionCircles, ignorePlacement,
bucketInstanceId, featureIndex, collisionGroupID)`. -/
def CollisionIndex.insertCollisionCircles (c : CollisionIndex) (collisionCircles : List ℝ)
    (ignorePlacement : Bool) (bucketInstanceId featureIndex collisionGroupID : ℕ) :
    CollisionIndex :=
  let key : GridKey := ⟨bucketInstanceId, featureIndex, collisionGroupID⟩
  if ignorePlacement then
    { c with ignoredGrid := insertCirclesLoop c.ignoredGrid key collisionCircles }
  else
    { c with grid := insertCirclesLoop c.grid key collisionCircles }

/-- `markCollisionCircleUsed(collisionCircles, index, used)`: store `1` or
`0` at `index + 4`. -/
def markCollisionCircleUsed (collisionCircles : List ℝ) (index : ℕ) (used : Bool) : List ℝ :=
  collisionCircles.set (index + 4) (if used then 1 else 0)

/-- The constant `epsilon = 0.00001` local to `clipLine`. -/
def clipLineEpsilon : ℝ := 0.00001

/-- `Number.MAX_VALUE`, the initial value of `tMax` in `clipLine`. -/
def jsNumberMaxValue : ℝ := (2 - 1 / 2 ^ 52) * 2 ^ 1023

/-- The `computeRegion` closure of `clipLine`: the 4-bit Cohen–Sutherland
region code of a point (`LEFT = 1`, `RIGHT = 2`, `BOTTOM = 4`, `TOP = 8`;
the screen's top-left is `(0, 0)`, so `TOP` is `y < min.y`). -/
def computeRegion (point minB maxB : Point) : ℕ :=
  (if point.x < minB.x then 1 else 0) |||
  (if point.x > maxB.x then 2 else 0) |||
  (if point.y < minB.y then 8 else 0) |||
  (if point.y > maxB.y then 4 else 0)

/-- The `slabCheckOnAxis` closure of `clipLine`, with the mutation of the
enclosing `tMin`/`tMax` made explicit: `none` models returning `false`,
`some (tMin, tMax)` returning `true` with the updated interval. -/
def slabCheckOnAxis (dirVec minVec maxVec startVec tMin tMax : ℝ) : Option (ℝ × ℝ) :=
  if |dirVec| < clipLineEpsilon then
    if startVec < minVec ∨ startVec > maxVec then none else some (tMin, tMax)
  else
    let ood := 1 / dirVec
    let t1 := (minVec - startVec) * ood
    let t2 := (maxVec - startVec) * ood
    let ts := if t1 > t2 then (t2, t1) else (t1, t2)
    let tMin2 := if ts.1 > tMin then ts.1 else tMin
    let tMax2 := if ts.2 < tMax then ts.2 else tMax
    if tMin2 > tMax2 ∨ tMax2 < 0 then none else some (tMin2, tMax2)

/-- `clipLine(start, end, minBoundary, maxBoundary)`: clip a segment to an
axis-aligned rectangle. Both-endpoints-inside returns the segment unchanged;
equal nonzero region codes return `null`; otherwise a slab intersection test
on both axes, with `tMin`/`tMax` clamped to `[0, len]` at the end. -/
def clipLine (start endP minBoundary maxBoundary : Point) : Option (Point × Point) :=
  let startRegion := computeRegion start minBoundary maxBoundary
  let endRegion := computeRegion endP minBoundary maxBoundary
  if startRegion = 0 ∧ endRegion = 0 then some (start, endP)
  else if startRegion = endRegion then none
  else
    let startToEnd := endP.sub start
    let len := startToEnd.mag
    if len < clipLineEpsilon then some (start, endP)
    else
      let dir := startToEnd.div len
      match slabCheckOnAxis dir.x minBoundary.x maxBoundary.x start.x 0 jsNumberMaxValue with
      | none => none
      | some (tMin1, tMax1) =>
        match slabCheckOnAxis dir.y minBoundary.y maxBoundary.y start.y tMin1 tMax1 with
        | none => none
        | some (tMin2, tMax2) =>
          let tMin3 := min tMin2 len
          let tMax3 := min tMax2 len
          some (start.add (startToEnd.mult (tMin3 / len)),
                start.add (startToEnd.mult (tMax3 / len)))

/-- The `circlesInSegment` count of `placeCollisionCircles`:
`ceil(segLen / (2 * radius)) - 1` interior circles for a clipped segment. -/
def circlesInSegment (radius : ℝ) (startPoint endPoint : Point) : ℤ :=
  ⌈(endPoint.sub startPoint).mag / (2 * radius)⌉ - 1

/-- The position of the `i`-th evenly-spaced circle of a clipped segment:
`startPoint.add(circleToCircle.mult(i))` with `circleToCircle =
startToEnd.div(circlesInSegment + 1)` (`i = 0` is the segment start,
`i = circlesInSegment + 1` the segment end). -/
def segCirclePos (radius : ℝ) (startPoint endPoint : Point) (i : ℕ) : Point :=
  startPoint.add
    (((endPoint.sub startPoint).div (((circlesInSegment radius startPoint endPoint : ℤ) : ℝ) + 1)).mult
      (i : ℝ))

/-- The circles `placeCollisionCircles` adds for one clipped segment: the
segment start (unless the previously placed circle is within `2 * radius` of
it), the segment end, then the `circlesInSegment` evenly-spaced interior
circles, in that push order. -/
def addSegmentCircles (radius : ℝ) (startPoint endPoint : Point)
    (lastPlacedCircle : Option Point) : List (Point × ℝ) :=
  let headCircle : List (Point × ℝ) :=
    match lastPlacedCircle with
    | none => [(startPoint, radius)]
    | some lp => if lp.dist startPoint ≥ 2 * radius then [(startPoint, radius)] else []
  headCircle ++ [(endPoint, radius)] ++
    (List.range (circlesInSegment radius startPoint endPoint).toNat).map
      (fun i => (segCirclePos radius startPoint endPoint (i + 1), radius))

/-- The per-segment loop of `placeCollisionCircles`: walk consecutive pairs
of the projected path, clip each segment against the label-plane rectangle,
skip clipped-away segments, and gather circles, threading the last placed
circle across segments. -/
def collectCircles (radius : ℝ) (minB maxB : Point) :
    List Point → Option Point → List (Point × ℝ)
  | p1 :: p2 :: rest, lastPlacedCircle =>
    match clipLine p1 p2 minB maxB with
    | none => collectCircles radius minB maxB (p2 :: rest) lastPlacedCircle
    | some (startPoint, endPoint) =>
        addSegmentCircles radius startPoint endPoint lastPlacedCircle ++
          collectCircles radius minB maxB (p2 :: rest) (some endPoint)
  | _, _ => []

/-- Return value of `placeCollisionCircles`: `{circles: Array<number>,
offscreen: boolean}`. -/
structure PlacedCircles where
  circles : List ℝ
  offscreen : Prop

/-- The per-circle evaluation loop of `placeCollisionCircles`: shift each
circle into padded-grid space, append `(px, py, radius, 0)` to the output
buffer, AND-reduce `offscreen`, OR-reduce `inGrid`, and (unless overlap is
allowed) hit-test the circle against the occlusion grid — returning
`{circles: [], offscreen: false}` at the first collision unless
`showCollisionCircles` suppresses the early exit, in which case the
collision is only remembered. The base case is the routine's final return:
empty circles if a collision was detected or no circle fell inside the
grid. -/
def CollisionIndex.circleScan (c : CollisionIndex) (allowOverlap showCollisionCircles : Bool)
    (pred : GridKey → Prop) :
    List (Point × ℝ) → List ℝ → Prop → Prop → Prop → PlacedCircles
  | [], placed, collisionDetected, inGrid, entirelyOffscreen =>
      ⟨if collisionDetected ∨ ¬ inGrid then [] else placed, entirelyOffscreen⟩
  | (pt, r) :: rest, placed, collisionDetected, inGrid, entirelyOffscreen =>
      let px := pt.x + viewportPadding
      let py := pt.y + viewportPadding
      let placed2 := placed ++ [px, py, r, 0]
      let x1 := px - r
      let y1 := py - r
      let x2 := px + r
      let y2 := py + r
      let off2 := entirelyOffscreen ∧ c.isOffscreen x1 y1 x2 y2
      let inGrid2 := inGrid ∨ c.isInsideGrid x1 y1 x2 y2
      if allowOverlap = false ∧ c.grid.hitTestCircle px py r pred then
        if showCollisionCircles = false then ⟨[], False⟩
        else c.circleScan allowOverlap showCollisionCircles pred rest placed2 True inGrid2 off2
      else
        c.circleScan allowOverlap showCollisionCircles pred rest placed2 collisionDetected
          inGrid2 off2

/-- The stitched projected path of `placeCollisionCircles`:
`first.path.slice(1).reverse().concat(last.path.slice(1))`. -/
def projectedPathOf (firstPath lastPath : List Point) : List Point :=
  (firstPath.drop 1).reverse ++ lastPath.drop 1

/-- `placeCollisionCircles` for a curved line label. The delegate
`projection.placeFirstAndLastGlyph` of `src/symbol/projection.js` is not
under `src/` here; modelled from the spec (§4.4: the line-layout routine is
an external collaborator producing the first-and-last-glyph projected path
fragments, or failing), its result is taken as the `firstAndLastGlyph`
argument: `none` when the delegate returns a falsy value, otherwise the
`first.path` and `last.path` fragments. The parameters of the source that
feed only that delegate (font scale, line offsets, glyph arrays, label-plane
matrix) are absorbed into it. -/
def CollisionIndex.placeCollisionCircles (c : CollisionIndex) (allowOverlap : Bool)
    (firstAndLastGlyph : Option (List Point × List Point)) (anchorX anchorY : ℝ)
    (posMatrix : Mat4) (showCollisionCircles : Bool) (pred : GridKey → Prop) : PlacedCircles :=
  let projectedAnchor := c.projectAnchor posMatrix anchorX anchorY
  let radius := 10 * projectedAnchor.perspectiveRatio
  let labelPlaneMin : Point := ⟨0, 0⟩
  let labelPlaneMax : Point := ⟨c.transform.width, c.transform.height⟩
  match firstAndLastGlyph with
  | none => c.circleScan allowOverlap showCollisionCircles pred [] [] False False True
  | some (first, last) =>
      let projectedPath := projectedPathOf first last
      c.circleScan allowOverlap showCollisionCircles pred
        (collectCircles radius labelPlaneMin labelPlaneMax projectedPath none) [] False False True

/-- The `radius` used by `placeCollisionCircles`:
`10 * projectedAnchor.perspectiveRatio`. -/
def CollisionIndex.collisionCircleRadius (c : CollisionIndex) (posMatrix : Mat4)
    (anchorX anchorY : ℝ) : ℝ :=
  10 * (c.projectAnchor posMatrix anchorX anchorY).perspectiveRatio

/-- The circle chain `placeCollisionCircles` builds before scanning it:
the per-segment circles collected over the stitched projected path, clipped
to the label plane. -/
def CollisionIndex.placedChain (c : CollisionIndex)
    (firstAndLastGlyph : Option (List Point × List Point)) (anchorX anchorY : ℝ)
    (posMatrix : Mat4) : List (Point × ℝ) :=
  match firstAndLastGlyph with
  | none => []
  | some (first, last) =>
      collectCircles (c.collisionCircleRadius posMatrix anchorX anchorY) ⟨0, 0⟩
        ⟨c.transform.width, c.transform.height⟩ (projectedPathOf first last) none

/-- Fold of `Math.min` over a list (the bounding-box computation of
`queryRenderedSymbols`; the list is nonempty there). -/
def listMin (l : List ℝ) : ℝ := l.foldr min (l.headD 0)

/-- Fold of `Math.max` over a list. -/
def listMax (l : List ℝ) : ℝ := l.foldr max (l.headD 0)

/-- Cross product `(a - o) × (b - o)`, the orientation primitive of the
segment-intersection tests. -/
def edgeCross (o a b : Point) : ℝ :=
  (a.x - o.x) * (b.y - o.y) - (a.y - o.y) * (b.x - o.x)

/-- Two segments cross (orientation-based test). -/
def segmentsCross (a b p q : Point) : Prop :=
  edgeCross a b p * edgeCross a b q ≤ 0 ∧ edgeCross p q a * edgeCross p q b ≤ 0

/-- The edge list of a polygon (each vertex paired with its cyclic
successor). -/
def polygonEdges (p : List Point) : List (Point × Point) := p.zip (p.rotate 1)

/-- A point lies inside a convex polygon: it is on one weak side of every
edge. -/
def pointInConvexPolygon (pt : Point) (p : List Point) : Prop :=
  (∀ e ∈ polygonEdges p, 0 ≤ edgeCross e.1 e.2 pt) ∨
    (∀ e ∈ polygonEdges p, edgeCross e.1 e.2 pt ≤ 0)

/-- Modelled from the spec: `intersectionTests.polygonIntersectsPolygon` of
`src/util/intersection_tests.js` (not under `src/` here), §4.6: the "exact
polygon-vs-polygon intersection test" used for feature picking — a vertex of
one polygon inside the other, or a pair of crossing edges. (The query
polygons of the claims are convex; `queryRenderedSymbols`' correctness
properties below do not depend on this test's value.) -/
def polygonIntersectsPolygon (pa pb : List Point) : Prop :=
  (∃ a ∈ pa, pointInConvexPolygon a pb) ∨ (∃ b ∈ pb, pointInConvexPolygon b pa) ∨
    (∃ ea ∈ polygonEdges pa, ∃ eb ∈ polygonEdges pb, segmentsCross ea.1 ea.2 eb.1 eb.2)

/-- The de-duplicating accumulation loop of `queryRenderedSymbols`: walk the
candidate entries; skip entries whose `(bucketInstanceId, featureIndex)` was
already seen; test the query polygon against the entry's bounding rectangle;
on success mark the pair seen and append the feature index to its bucket's
list. The result maps each `bucketInstanceId` to its feature indexes in
first-seen order. -/
def collectQueryResults (query : List Point) :
    List GridQueryResult → List (ℕ × ℕ) → (ℕ → List ℕ) → (ℕ → List ℕ)
  | [], _seen, result => result
  | f :: rest, seen, result =>
    if (f.key.bucketInstanceId, f.key.featureIndex) ∈ seen then
      collectQueryResults query rest seen result
    else
      let bbox : List Point := [⟨f.x1, f.y1⟩, ⟨f.x2, f.y1⟩, ⟨f.x2, f.y2⟩, ⟨f.x1, f.y2⟩]
      if polygonIntersectsPolygon query bbox then
        collectQueryResults query rest ((f.key.bucketInstanceId, f.key.featureIndex) :: seen)
          (fun b => if b = f.key.bucketInstanceId then result b ++ [f.key.featureIndex]
                    else result b)
      else collectQueryResults query rest seen result

/-- `queryRenderedSymbols(viewportQueryGeometry)`: mapping from
`bucketInstanceId` to the feature indexes whose inserted geometry the query
polygon overlaps. Short-circuits to the empty mapping when the query polygon
is empty or both grids hold no keys; otherwise shifts the polygon into
padded-grid space, computes its bounding box, queries both grids and
de-duplicates. -/
def CollisionIndex.queryRenderedSymbols (c : CollisionIndex)
    (viewportQueryGeometry : List Point) : ℕ → List ℕ :=
  if viewportQueryGeometry = [] ∨
      (c.grid.keysLength = 0 ∧ c.ignoredGrid.keysLength = 0) then
    fun _ => []
  else
    let query := viewportQueryGeometry.map
      (fun p => Point.mk (p.x + viewportPadding) (p.y + viewportPadding))
    let minX := listMin (query.map Point.x)
    let minY := listMin (query.map Point.y)
    let maxX := listMax (query.map Point.x)
    let maxY := listMax (query.map Point.y)
    let features := c.grid.query minX minY maxX maxY ++
      c.ignoredGrid.query minX minY maxX maxY
    collectQueryResults query features [] (fun _ => [])

/-- `placeCollisionBox` viewed as a call on the index object: the result
paired with the state of the index after the call. The method body reads
`this.grid`, `this.transform` and the boundary fields but assigns to no
instance field, so the post-state is the pre-state. -/
def CollisionIndex.placeCollisionBoxCall (c : CollisionIndex)
    (collisionBox : SingleCollisionBox) (allowOverlap : Bool) (textPixelRatio : ℝ)
    (posMatrix : Mat4) (pred : GridKey → Prop) : PlacedBox × CollisionIndex :=
  (c.placeCollisionBox collisionBox allowOverlap textPixelRatio posMatrix pred, c)

/-! Concrete instances for the scenarios of the spec (an 800×600 viewport
with 100px padding, so the padded grid is 1000×800; `cameraToCenterDistance`
is taken as 1 so that an identity `posMatrix` yields perspective ratio 1). -/

/-- An 800×600 viewport transform with `cameraToCenterDistance = 1`. -/
def transform800 : Transform := ⟨800, 600, 1, 0⟩

/-- A freshly constructed collision index for `transform800`. -/
def emptyIndex800 : CollisionIndex := ⟨transform800, Grid.empty, Grid.empty⟩

/-- The index after inserting box `(40, 40, 60, 60)` under key `{1, 0, 0}`
with `ignorePlacement = false`. -/
def scenarioIndex : CollisionIndex :=
  emptyIndex800.insertCollisionBox [40, 40, 60, 60] false 1 0 0

/-- A collision box whose anchor projects (under the identity matrix) to the
padded-grid point `(45, 45)`, with corner offsets `(0, 0, 20, 20)`, so its
projected grid rectangle is `(45, 45, 65, 65)`. -/
def scenarioBox : SingleCollisionBox := ⟨0, 0, 20, 20, -91/80, 71/60⟩

/-- Group predicate accepting exactly collision group 0 (the group of
`scenarioIndex`'s entry). -/
def sameGroupPred : GridKey → Prop := fun k => k.collisionGroupID = 0

/-- Group predicate accepting exactly collision group 1 (disjoint from the
group of `scenarioIndex`'s entry). -/
def disjointGroupPred : GridKey → Prop := fun k => k.collisionGroupID = 1

/-- An index whose occlusion grid holds one box `(105, 105, 115, 115)` under
key `{2, 0, 0}`, in the way of the circle chain below. -/
def circleTestIndex : CollisionIndex :=
  ⟨transform800, Grid.empty.insert ⟨2, 0, 0⟩ 105 105 115 115, Grid.empty⟩

/-- First-and-last-glyph path fragments whose stitched projected path is the
single segment from `(10, 10)` to `(40, 10)`. -/
def circleTestGlyphs : Option (List Point × List Point) :=
  some ([⟨0, 0⟩, ⟨10, 10⟩], [⟨0, 0⟩, ⟨40, 10⟩])

/-- Identity-like matrix with `m15 = 1/2`: transforms `[x, y, 0, 1]` to a
homogeneous coordinate `w = 1/2` smaller than `cameraToCenterDistance = 1`. -/
def halfWMatrix : Mat4 := ⟨1, 0, 0, 0, 0, 1, 0, 0, 0, 0, 1, 0, 0, 0, 0, 1/2⟩

/-- Identity-like matrix with `m15 = 2`: yields `w = 2`. -/
def doubleWMatrix : Mat4 := ⟨1, 0, 0, 0, 0, 1, 0, 0, 0, 0, 1, 0, 0, 0, 0, 2⟩

end

/-! # Theorems -/

/-- C10: `isOffscreen` treats the far boundaries asymmetrically: a rectangle
whose left edge `x1` equals `screenRightBoundary` is classified offscreen
(the test is `x1 >= screenRightBoundary`), whereas a rectangle whose top
edge `y1` equals `screenBottomBoundary` is not classified offscreen (the
test is `y1 > screenBottomBoundary`; the rectangle must of course not be
offscreen on any other side); the near sides use `x2 < viewportPadding` and
`y2 < viewportPadding`. -/
theorem isOffscreen_far_boundary_asymmetry :
    (∀ (c : CollisionIndex) (x1 y1 x2 y2 : ℝ), x1 = c.screenRightBoundary →
      c.isOffscreen x1 y1 x2 y2) ∧
    (∀ (c : CollisionIndex) (x1 y1 x2 y2 : ℝ), y1 = c.screenBottomBoundary →
      viewportPadding ≤ x2 → x1 < c.screenRightBoundary → viewportPadding ≤ y2 →
      ¬ c.isOffscreen x1 y1 x2 y2) ∧
    (∀ (c : CollisionIndex) (x1 y1 x2 y2 : ℝ), x2 < viewportPadding →
      c.isOffscreen x1 y1 x2 y2) ∧
    (∀ (c : CollisionIndex) (x1 y1 x2 y2 : ℝ), y2 < viewportPadding →
      c.isOffscreen x1 y1 x2 y2) := by
  refine ⟨?_, ?_, ?_, ?_⟩
  · intro c x1 y1 x2 y2 h
    exact Or.inr (Or.inl h.ge)
  · intro c x1 y1 x2 y2 h hx2 hx1 hy2
    unfold CollisionIndex.isOffscreen
    push_neg
    exact ⟨hx2, hx1, hy2, le_of_eq h⟩
  · intro c x1 y1 x2 y2 h
    exact Or.inl h
  · intro c x1 y1 x2 y2 h
    exact Or.inr (Or.inr (Or.inl h))

/-- Witness for C10 on the 800×600 index (`screenRightBoundary = 900`,
`screenBottomBoundary = 700`). -/
theorem isOffscreen_far_boundary_asymmetry_witness :
    emptyIndex800.isOffscreen 900 0 950 50 ∧
    ¬ emptyIndex800.isOffscreen 200 700 300 300 ∧
    emptyIndex800.isOffscreen 0 0 99 300 ∧
    emptyIndex800.isOffscreen 0 300 300 99 := by
  refine ⟨?_, ?_, ?_, ?_⟩
  · exact isOffscreen_far_boundary_asymmetry.1 emptyIndex800 900 0 950 50
      (by simp [emptyIndex800, transform800, CollisionIndex.screenRightBoundary,
        viewportPadding]; norm_num)
  · exact isOffscreen_far_boundary_asymmetry.2.1 emptyIndex800 200 700 300 300
      (by simp [emptyIndex800, transform800, CollisionIndex.screenBottomBoundary,
        viewportPadding]; norm_num)
      (by norm_num [viewportPadding])
      (by simp [emptyIndex800, transform800, CollisionIndex.screenRightBoundary,
        viewportPadding]; norm_num)
      (by norm_num [viewportPadding])
  · exact isOffscreen_far_boundary_asymmetry.2.2.1 emptyIndex800 0 0 99 300
      (by norm_num [viewportPadding])
  · exact isOffscreen_far_boundary_asymmetry.2.2.2 emptyIndex800 0 300 300 99
      (by norm_num [viewportPadding])

/-- C9: `markCollisionCircleUsed(collisionCircles, index, used)` writes `1`
or `0` only to element `index + 4` of the array and leaves every other
element — in particular element `index + 3`, the `usedFlag` slot of the
4-tuple starting at `index` — unchanged. -/
theorem markCollisionCircleUsed_writes_only_index_plus_four :
    (∀ (collisionCircles : List ℝ) (index j : ℕ) (used : Bool), j ≠ index + 4 →
      (markCollisionCircleUsed collisionCircles index used).get? j =
        collisionCircles.get? j) ∧
    (∀ (collisionCircles : List ℝ) (index : ℕ) (used : Bool),
      index + 4 < collisionCircles.length →
      (markCollisionCircleUsed collisionCircles index used).get? (index + 4) =
        some (if used then 1 else 0)) := by
  constructor
  · intro l i j used hj
    exact List.get?_set_ne _ _ (fun h => hj h.symm)
  · intro l i used hlen
    exact List.get?_set_eq_of_lt _ hlen

/-- Witness for C9 on a concrete 8-element buffer: the flag lands at
position 4, position 3 is untouched. -/
theorem markCollisionCircleUsed_writes_only_index_plus_four_witness :
    (3 : ℕ) ≠ 0 + 4 ∧
    (markCollisionCircleUsed [5, 5, 5, 5, 5, 5, 5, 5] 0 true).get? 3 =
      ([5, 5, 5, 5, 5, 5, 5, 5] : List ℝ).get? 3 ∧
    0 + 4 < ([5, 5, 5, 5, 5, 5, 5, 5] : List ℝ).length ∧
    (markCollisionCircleUsed [5, 5, 5, 5, 5, 5, 5, 5] 0 true).get? (0 + 4) =
      some (if true then 1 else 0) := by
  refine ⟨by norm_num, ?_, by simp, ?_⟩
  · exact markCollisionCircleUsed_writes_only_index_plus_four.1
      [5, 5, 5, 5, 5, 5, 5, 5] 0 3 true (by norm_num)
  · exact markCollisionCircleUsed_writes_only_index_plus_four.2
      [5, 5, 5, 5, 5, 5, 5, 5] 0 true (by simp)

/-- C7: `placeCollisionBox` is a pure query on the index: viewed as a call
returning the result together with the post-call index state, the post-state
equals the pre-state, and calling again from that post-state with identical
arguments yields the identical result-state pair. -/
theorem placeCollisionBox_pure_query :
    ∀ (c : CollisionIndex) (collisionBox : SingleCollisionBox) (allowOverlap : Bool)
      (textPixelRatio : ℝ) (posMatrix : Mat4) (pred : GridKey → Prop),
      (c.placeCollisionBoxCall collisionBox allowOverlap textPixelRatio posMatrix pred).2 = c ∧
      (c.placeCollisionBoxCall collisionBox allowOverlap textPixelRatio posMatrix
          pred).2.placeCollisionBoxCall collisionBox allowOverlap textPixelRatio posMatrix pred =
        c.placeCollisionBoxCall collisionBox allowOverlap textPixelRatio posMatrix pred :=
  fun _ _ _ _ _ _ => ⟨rfl, rfl⟩

/-- C5 counterexample: with the identity-like matrix whose `m15` is `1/2`,
the transform of the anchor `(0, 0)` yields `w = 1/2 ≠ 0`, and the
perspective ratio returned by `projectAnchor` (and by
`projectAndGetPerspectiveRatio`) is `3/2`, which does not lie in `(0, 1]` —
refuting the claimed range for anchors nearer than the camera-to-center
distance. -/
theorem perspectiveRatio_no_unit_range_cex :
    clipSpaceW halfWMatrix 0 0 ≠ 0 ∧
    (emptyIndex800.projectAnchor halfWMatrix 0 0).perspectiveRatio = 3 / 2 ∧
    ¬ (emptyIndex800.projectAnchor halfWMatrix 0 0).perspectiveRatio ≤ 1 ∧
    (emptyIndex800.projectAndGetPerspectiveRatio halfWMatrix 0 0).perspectiveRatio = 3 / 2 := by
  refine ⟨?_, ?_, ?_, ?_⟩ <;>
    norm_num [clipSpaceW, xyTransformMat4, halfWMatrix, CollisionIndex.projectAnchor,
      CollisionIndex.projectAndGetPerspectiveRatio, emptyIndex800, transform800]

/-- C5 (amended): for every anchor and matrix, the perspective ratio of
`projectAnchor` and of `projectAndGetPerspectiveRatio` equals
`0.5 + 0.5 * (cameraToCenterDistance / w)`; it lies in `(0, 1]` provided
`0 < cameraToCenterDistance ≤ w` (anchors at or beyond the camera-to-center
distance) — not for every nonzero `w`. -/
theorem perspectiveRatio_formula_and_range :
    ∀ (c : CollisionIndex) (posMatrix : Mat4) (x y : ℝ),
      0 < c.transform.cameraToCenterDistance →
      c.transform.cameraToCenterDistance ≤ clipSpaceW posMatrix x y →
      ((c.projectAnchor posMatrix x y).perspectiveRatio =
          0.5 + 0.5 * (c.transform.cameraToCenterDistance / clipSpaceW posMatrix x y) ∧
        0 < (c.projectAnchor posMatrix x y).perspectiveRatio ∧
        (c.projectAnchor posMatrix x y).perspectiveRatio ≤ 1) ∧
      (c.projectAndGetPerspectiveRatio posMatrix x y).perspectiveRatio =
        (c.projectAnchor posMatrix x y).perspectiveRatio := by
  intro c posMatrix x y hd hdw
  have hw : 0 < clipSpaceW posMatrix x y := lt_of_lt_of_le hd hdw
  have hform : (c.projectAnchor posMatrix x y).perspectiveRatio =
      0.5 + 0.5 * (c.transform.cameraToCenterDistance / clipSpaceW posMatrix x y) := rfl
  refine ⟨⟨hform, ?_, ?_⟩, rfl⟩
  · rw [hform]
    positivity
  · rw [hform]
    have h1 : c.transform.cameraToCenterDistance / clipSpaceW posMatrix x y ≤ 1 :=
      (div_le_one hw).mpr hdw
    linarith

/-- Witness for C5 (amended) at `w = 2`, `cameraToCenterDistance = 1`:
ratio `3/4 ∈ (0, 1]`. -/
theorem perspectiveRatio_formula_and_range_witness :
    0 < (emptyIndex800.projectAnchor doubleWMatrix 0 0).perspectiveRatio ∧
    (emptyIndex800.projectAnchor doubleWMatrix 0 0).perspectiveRatio ≤ 1 := by
  have h := perspectiveRatio_formula_and_range emptyIndex800 doubleWMatrix 0 0
    (by norm_num [emptyIndex800, transform800])
    (by norm_num [clipSpaceW, xyTransformMat4, doubleWMatrix, emptyIndex800, transform800])
  exact ⟨h.1.2.1, h.1.2.2⟩

/-- `Number.MAX_VALUE` dominates the modest parameter values of the
concrete clipping scenarios. -/
theorem le_jsNumberMaxValue {x : ℝ} (h : x ≤ 1024) : x < jsNumberMaxValue := by
  have e1 : (1 : ℝ) ≤ 2 ^ (52 : ℕ) := one_le_pow₀ (by norm_num)
  have e2 : (1025 : ℝ) ≤ 2 ^ (1023 : ℕ) := by
    calc (1025 : ℝ) ≤ 2 ^ (11 : ℕ) := by norm_num
    _ ≤ 2 ^ (1023 : ℕ) := pow_le_pow_right₀ (by norm_num) (by norm_num)
  have e3 : (1 : ℝ) / 2 ^ (52 : ℕ) ≤ 1 := by
    rw [div_le_one (by positivity)]
    exact e1
  have e4 : (0 : ℝ) ≤ (1 - 1 / 2 ^ (52 : ℕ)) * 2 ^ (1023 : ℕ) :=
    mul_nonneg (by linarith) (by positivity)
  unfold jsNumberMaxValue
  nlinarith [e2, e4]

/-- C6 counterexample: the segment from `(-9, -8)` to `(-3, 0)` lies
entirely strictly left of `min.x = 0` (one excluded half-plane), yet
`clipLine` does not return `null`: the endpoints carry different
Cohen–Sutherland region codes (`LEFT|TOP` vs `LEFT`), the equal-region
trivial rejection does not fire, and the slab phase clamps both parameters
to the segment length, returning the degenerate segment
`((-3, 0), (-3, 0))`. -/
theorem clipLine_left_of_min_cex :
    (-9 : ℝ) < (0 : ℝ) ∧ (-3 : ℝ) < (0 : ℝ) ∧
    clipLine ⟨-9, -8⟩ ⟨-3, 0⟩ ⟨0, 0⟩ ⟨100, 100⟩ = some (⟨-3, 0⟩, ⟨-3, 0⟩) := by
  refine ⟨by norm_num, by norm_num, ?_⟩
  have h100 : Real.sqrt (100 : ℝ) = 10 := by
    rw [show (100 : ℝ) = 10 ^ 2 by norm_num, Real.sqrt_sq (by norm_num : (0 : ℝ) ≤ 10)]
  have hmax : (545 : ℝ) / 3 < jsNumberMaxValue := le_jsNumberMaxValue (by norm_num)
  norm_num [clipLine, computeRegion, slabCheckOnAxis, Point.sub, Point.mag, Point.div,
    Point.add, Point.mult, clipLineEpsilon, h100, hmax, abs_of_nonneg, min_def]
  intro hcontra
  exact absurd hcontra (by decide)

/-- C6 (amended): clipping a segment whose endpoints both lie inside
`[min, max]` returns the original endpoints unchanged; and a segment whose
endpoints carry the same nonzero region code (both in one and the same
excluded Cohen–Sutherland region, e.g. both left of `min.x` with `y` inside
`[min.y, max.y]`) is trivially rejected to `null`. Merely lying in one
excluded half-plane (such as strictly left of `min.x`) is not sufficient for
`null`: see the counterexample. -/
theorem clipLine_trivial_accept_and_reject :
    (∀ start endP minB maxB : Point,
      minB.x ≤ start.x → start.x ≤ maxB.x → minB.y ≤ start.y → start.y ≤ maxB.y →
      minB.x ≤ endP.x → endP.x ≤ maxB.x → minB.y ≤ endP.y → endP.y ≤ maxB.y →
      clipLine start endP minB maxB = some (start, endP)) ∧
    (∀ start endP minB maxB : Point,
      computeRegion start minB maxB = computeRegion endP minB maxB →
      computeRegion start minB maxB ≠ 0 →
      clipLine start endP minB maxB = none) := by
  constructor
  · intro start endP minB maxB hsx1 hsx2 hsy1 hsy2 hex1 hex2 hey1 hey2
    have hs : computeRegion start minB maxB = 0 := by
      unfold computeRegion
      rw [if_neg (not_lt.mpr hsx1), if_neg (not_lt.mpr hsx2), if_neg (not_lt.mpr hsy1),
        if_neg (not_lt.mpr hsy2)]
      decide
    have he : computeRegion endP minB maxB = 0 := by
      unfold computeRegion
      rw [if_neg (not_lt.mpr hex1), if_neg (not_lt.mpr hex2), if_neg (not_lt.mpr hey1),
        if_neg (not_lt.mpr hey2)]
      decide
    unfold clipLine
    rw [if_pos ⟨hs, he⟩]
  · intro start endP minB maxB heq hne
    unfold clipLine
    rw [if_neg (fun hh => hne hh.1), if_pos heq]

/-- Witness for C6 (amended): a segment inside `[0, 10] × [0, 10]` is
returned unchanged, and a segment with both endpoints in the left-middle
region (equal nonzero region codes) is rejected. -/
theorem clipLine_trivial_accept_and_reject_witness :
    clipLine ⟨1, 2⟩ ⟨3, 4⟩ ⟨0, 0⟩ ⟨10, 10⟩ = some (⟨1, 2⟩, ⟨3, 4⟩) ∧
    clipLine ⟨-5, 3⟩ ⟨-2, 4⟩ ⟨0, 0⟩ ⟨10, 10⟩ = none := by
  constructor
  · exact clipLine_trivial_accept_and_reject.1 ⟨1, 2⟩ ⟨3, 4⟩ ⟨0, 0⟩ ⟨10, 10⟩
      (by norm_num) (by norm_num) (by norm_num) (by norm_num)
      (by norm_num) (by norm_num) (by norm_num) (by norm_num)
  · exact clipLine_trivial_accept_and_reject.2 ⟨-5, 3⟩ ⟨-2, 4⟩ ⟨0, 0⟩ ⟨10, 10⟩
      (by norm_num [computeRegion]) (by norm_num [computeRegion])

/-- Inserting a box never changes the projected rectangle of a later
placement (insertion touches only the grids, not the transform). -/
theorem projectedBoxRect_insert (c : CollisionIndex) (B : List ℝ) (ip : Bool)
    (bid fid gid : ℕ) (box : SingleCollisionBox) (tpr : ℝ) (m : Mat4) :
    (c.insertCollisionBox B ip bid fid gid).projectedBoxRect box tpr m =
      c.projectedBoxRect box tpr m := by
  cases ip <;> rfl

/-- `insertCollisionBox` with `ignorePlacement = false` appends exactly one
box entry to the occlusion grid. -/
theorem insertCollisionBox_false_grid (c : CollisionIndex) (B : List ℝ)
    (bid fid gid : ℕ) :
    (c.insertCollisionBox B false bid fid gid).grid.entries =
      c.grid.entries ++
        [⟨⟨bid, fid, gid⟩, .box (B.getD 0 0) (B.getD 1 0) (B.getD 2 0) (B.getD 3 0)⟩] := rfl

/-- `placeCollisionBox` with `allowOverlap = false` returns the empty box as
soon as the occlusion grid hit-tests positive on the projected rectangle. -/
theorem placeCollisionBox_empty_of_hit (c : CollisionIndex) (box : SingleCollisionBox)
    (tpr : ℝ) (m : Mat4) (pred : GridKey → Prop)
    (h : c.grid.hitTest (c.projectedBoxRect box tpr m).tlX (c.projectedBoxRect box tpr m).tlY
      (c.projectedBoxRect box tpr m).brX (c.projectedBoxRect box tpr m).brY pred) :
    (c.placeCollisionBox box false tpr m pred).box = [] := by
  simp only [CollisionIndex.placeCollisionBox]
  rw [if_pos (Or.inr ⟨rfl, h⟩)]

/-- `placeCollisionBox` succeeds — returning the projected rectangle and its
offscreen flag — when the rectangle is inside the padded grid and no
disallowed overlap fires. -/
theorem placeCollisionBox_success_eq (c : CollisionIndex) (box : SingleCollisionBox)
    (allowOverlap : Bool) (tpr : ℝ) (m : Mat4) (pred : GridKey → Prop)
    (hin : c.isInsideGrid (c.projectedBoxRect box tpr m).tlX (c.projectedBoxRect box tpr m).tlY
      (c.projectedBoxRect box tpr m).brX (c.projectedBoxRect box tpr m).brY)
    (hmiss : ¬ (allowOverlap = false ∧
      c.grid.hitTest (c.projectedBoxRect box tpr m).tlX (c.projectedBoxRect box tpr m).tlY
        (c.projectedBoxRect box tpr m).brX (c.projectedBoxRect box tpr m).brY pred)) :
    c.placeCollisionBox box allowOverlap tpr m pred =
      ⟨[(c.projectedBoxRect box tpr m).tlX, (c.projectedBoxRect box tpr m).tlY,
        (c.projectedBoxRect box tpr m).brX, (c.projectedBoxRect box tpr m).brY],
       c.isOffscreen (c.projectedBoxRect box tpr m).tlX (c.projectedBoxRect box tpr m).tlY
         (c.projectedBoxRect box tpr m).brX (c.projectedBoxRect box tpr m).brY⟩ := by
  simp only [CollisionIndex.placeCollisionBox]
  rw [if_neg]
  rintro (h | h)
  · exact h hin
  · exact hmiss h

/-- C1: after committing box `B` via `insertCollisionBox` with
`ignorePlacement = false` under collision group `gid`, a `placeCollisionBox`
call with `allowOverlap = false` whose projected grid rectangle overlaps `B`
returns an empty box whenever its group predicate accepts group-`gid`
entries; and it succeeds — returning the projected rectangle — whenever its
group predicate excludes group `gid`, no other predicate-matching entry
overlaps the rectangle, and the rectangle lies inside the padded grid. -/
theorem insertCollisionBox_blocks_same_group_not_disjoint :
    (∀ (c : CollisionIndex) (B : List ℝ) (bid fid gid : ℕ) (box : SingleCollisionBox)
      (tpr : ℝ) (m : Mat4) (pred : GridKey → Prop),
      (∀ k : GridKey, k.collisionGroupID = gid → pred k) →
      boxesIntersect (B.getD 0 0) (B.getD 1 0) (B.getD 2 0) (B.getD 3 0)
        (c.projectedBoxRect box tpr m).tlX (c.projectedBoxRect box tpr m).tlY
        (c.projectedBoxRect box tpr m).brX (c.projectedBoxRect box tpr m).brY →
      ((c.insertCollisionBox B false bid fid gid).placeCollisionBox box false tpr m pred).box
        = []) ∧
    (∀ (c : CollisionIndex) (B : List ℝ) (bid fid gid : ℕ) (box : SingleCollisionBox)
      (tpr : ℝ) (m : Mat4) (pred : GridKey → Prop),
      (∀ k : GridKey, k.collisionGroupID = gid → ¬ pred k) →
      (∀ e ∈ c.grid.entries, pred e.key →
        ¬ e.geom.intersectsBox (c.projectedBoxRect box tpr m).tlX
          (c.projectedBoxRect box tpr m).tlY (c.projectedBoxRect box tpr m).brX
          (c.projectedBoxRect box tpr m).brY) →
      c.isInsideGrid (c.projectedBoxRect box tpr m).tlX (c.projectedBoxRect box tpr m).tlY
        (c.projectedBoxRect box tpr m).brX (c.projectedBoxRect box tpr m).brY →
      ((c.insertCollisionBox B false bid fid gid).placeCollisionBox box false tpr m pred).box
        = [(c.projectedBoxRect box tpr m).tlX, (c.projectedBoxRect box tpr m).tlY,
           (c.projectedBoxRect box tpr m).brX, (c.projectedBoxRect box tpr m).brY]) := by
  constructor
  · intro c B bid fid gid box tpr m pred haccept hover
    apply placeCollisionBox_empty_of_hit
    rw [projectedBoxRect_insert]
    refine ⟨⟨⟨bid, fid, gid⟩, .box (B.getD 0 0) (B.getD 1 0) (B.getD 2 0) (B.getD 3 0)⟩,
      ?_, haccept _ rfl, hover⟩
    rw [insertCollisionBox_false_grid]
    exact List.mem_append_right _ (List.mem_singleton.mpr rfl)
  · intro c B bid fid gid box tpr m pred hexcl hother hin
    have hmiss : ¬ ((false : Bool) = false ∧
        (c.insertCollisionBox B false bid fid gid).grid.hitTest
          ((c.insertCollisionBox B false bid fid gid).projectedBoxRect box tpr m).tlX
          ((c.insertCollisionBox B false bid fid gid).projectedBoxRect box tpr m).tlY
          ((c.insertCollisionBox B false bid fid gid).projectedBoxRect box tpr m).brX
          ((c.insertCollisionBox B false bid fid gid).projectedBoxRect box tpr m).brY pred) := by
      rintro ⟨-, e, hmem, hpred, hint⟩
      rw [insertCollisionBox_false_grid] at hmem
      rw [projectedBoxRect_insert] at hint
      rcases List.mem_append.mp hmem with hmem | hmem
      · exact hother e hmem hpred hint
      · rw [List.mem_singleton.mp hmem] at hpred
        exact hexcl _ rfl hpred
    have h := placeCollisionBox_success_eq (c.insertCollisionBox B false bid fid gid) box
      false tpr m pred (by rw [projectedBoxRect_insert]; exact hin) hmiss
    rw [h, projectedBoxRect_insert]

/-- The projected rectangle of the concrete scenario: anchor `(-91/80,
71/60)` projects through the identity matrix to the padded-grid point
`(45, 45)`, and the corner offsets `(0, 0, 20, 20)` at
`textPixelRatio × perspectiveRatio = 1` give the rectangle
`(45, 45, 65, 65)`. -/
theorem scenarioRect_eval :
    emptyIndex800.projectedBoxRect scenarioBox 1 Mat4.identity = ⟨45, 45, 65, 65⟩ := by
  norm_num [CollisionIndex.projectedBoxRect, CollisionIndex.projectAndGetPerspectiveRatio,
    xyTransformMat4, Mat4.identity, emptyIndex800, transform800, scenarioBox, viewportPadding]

/-- Witness for C1 on the concrete scenario: the inserted box
`(40, 40, 60, 60)` of group 0 blocks the overlapping rectangle
`(45, 45, 65, 65)` under a predicate accepting group 0, and does not block
it under a predicate accepting only group 1. -/
theorem insertCollisionBox_blocks_same_group_not_disjoint_witness :
    ((emptyIndex800.insertCollisionBox [40, 40, 60, 60] false 1 0 0).placeCollisionBox
      scenarioBox false 1 Mat4.identity sameGroupPred).box = [] ∧
    ((emptyIndex800.insertCollisionBox [40, 40, 60, 60] false 1 0 0).placeCollisionBox
      scenarioBox false 1 Mat4.identity disjointGroupPred).box = [45, 45, 65, 65] := by
  constructor
  · exact insertCollisionBox_blocks_same_group_not_disjoint.1 emptyIndex800
      [40, 40, 60, 60] 1 0 0 scenarioBox 1 Mat4.identity sameGroupPred
      (fun _ h => h)
      (by rw [scenarioRect_eval]; norm_num [boxesIntersect])
  · have h := insertCollisionBox_blocks_same_group_not_disjoint.2 emptyIndex800
      [40, 40, 60, 60] 1 0 0 scenarioBox 1 Mat4.identity disjointGroupPred
      (by intro k hk hp; simp [disjointGroupPred] at hp; omega)
      (by intro e he; simp [emptyIndex800, Grid.empty] at he)
      (by rw [scenarioRect_eval]
          norm_num [CollisionIndex.isInsideGrid, CollisionIndex.gridRightBoundary,
            CollisionIndex.gridBottomBoundary, emptyIndex800, transform800, viewportPadding])
    rw [scenarioRect_eval] at h
    exact h

/-- The scenario index carries the 800×600 transform unchanged. -/
theorem scenario_transform : scenarioIndex.transform = transform800 := rfl

/-- The scenario index's occlusion grid holds exactly the inserted box. -/
theorem scenario_entries :
    scenarioIndex.grid.entries = [⟨⟨1, 0, 0⟩, .box 40 40 60 60⟩] := rfl

/-- The projected rectangle of the scenario placement on the scenario
index. -/
theorem scenario_hrect :
    scenarioIndex.projectedBoxRect scenarioBox 1 Mat4.identity = ⟨45, 45, 65, 65⟩ := by
  simp only [scenarioIndex]
  rw [projectedBoxRect_insert]
  exact scenarioRect_eval

/-- With `allowOverlap = true` the scenario placement succeeds with
rectangle `(45, 45, 65, 65)` and `offscreen = true` (the rectangle lies
entirely left of and above the visible viewport `[100, 900] × [100, 700]`
in padded-grid space). -/
theorem scenario_place_true_eval :
    scenarioIndex.placeCollisionBox scenarioBox true 1 Mat4.identity sameGroupPred =
      ⟨[45, 45, 65, 65], True⟩ := by
  have h := placeCollisionBox_success_eq scenarioIndex scenarioBox true 1 Mat4.identity
    sameGroupPred
    (by rw [scenario_hrect]
        refine ⟨by norm_num, ?_, by norm_num, ?_⟩ <;>
          simp [CollisionIndex.gridRightBoundary, CollisionIndex.gridBottomBoundary,
            scenario_transform, transform800, viewportPadding] <;> norm_num)
    (by rintro ⟨h, -⟩; simp at h)
  rw [scenario_hrect] at h
  rw [h]
  have hoff : scenarioIndex.isOffscreen (45 : ℝ) 45 65 65 :=
    Or.inl (by norm_num [viewportPadding])
  simp only [PlacedBox.mk.injEq]
  exact ⟨trivial, eq_true hoff⟩

/-- C2 counterexample: on the 800×600 index with box `(40, 40, 60, 60)`
inserted under key `{1, 0, 0}`, the `allowOverlap = true` placement of the
rectangle `(45, 45, 65, 65)` does return that rectangle, but with
`offscreen = true`, not `offscreen = false` as the claim states: the test
`x2 < viewportPadding` fires (`65 < 100`). -/
theorem placeCollisionBox_scenario_offscreen_cex :
    (scenarioIndex.placeCollisionBox scenarioBox true 1 Mat4.identity sameGroupPred).box
      = [45, 45, 65, 65] ∧
    scenarioIndex.placeCollisionBox scenarioBox true 1 Mat4.identity sameGroupPred ≠
      ⟨[45, 45, 65, 65], False⟩ := by
  constructor
  · rw [scenario_place_true_eval]
  · intro h
    rw [scenario_place_true_eval] at h
    have h2 := congrArg PlacedBox.offscreen h
    exact absurd h2 (by simp)

/-- C2 (amended): on the 800×600-viewport index (padded grid 1000×800) with
box `(40, 40, 60, 60)` inserted under key `{1, 0, 0}`, placing the projected
rectangle `(45, 45, 65, 65)` in the same collision group returns the empty
box under `allowOverlap = false`, and returns
`{box: [45, 45, 65, 65], offscreen: true}` under `allowOverlap = true`
(the rectangle lies wholly outside the unpadded viewport, so the offscreen
flag is `true`, not `false` as the claim expected). -/
theorem placeCollisionBox_scenario_results :
    (scenarioIndex.placeCollisionBox scenarioBox false 1 Mat4.identity sameGroupPred).box
      = [] ∧
    scenarioIndex.placeCollisionBox scenarioBox true 1 Mat4.identity sameGroupPred =
      ⟨[45, 45, 65, 65], True⟩ := by
  constructor
  · apply placeCollisionBox_empty_of_hit
    rw [scenario_hrect]
    refine ⟨⟨⟨1, 0, 0⟩, .box 40 40 60 60⟩, ?_, rfl, ?_⟩
    · rw [scenario_entries]
      exact List.mem_singleton.mpr rfl
    · norm_num [GridGeom.intersectsBox, boxesIntersect]
  · exact scenario_place_true_eval

/-- The accumulation loop of `queryRenderedSymbols` keeps each bucket's
feature list duplicate-free, given that everything already recorded is in
the seen set. -/
theorem collectQueryResults_nodup (query : List Point) :
    ∀ (features : List GridQueryResult) (seen : List (ℕ × ℕ)) (result : ℕ → List ℕ),
      (∀ b i, i ∈ result b → (b, i) ∈ seen) →
      (∀ b, (result b).Nodup) →
      ∀ b, (collectQueryResults query features seen result b).Nodup := by
  intro features
  induction features with
  | nil =>
    intro seen result hinv hnodup b
    simpa only [collectQueryResults] using hnodup b
  | cons f rest ih =>
    intro seen result hinv hnodup b
    simp only [collectQueryResults]
    split_ifs with h1 h2
    · exact ih seen result hinv hnodup b
    · refine ih _ _ ?_ ?_ b
      · intro b2 i hi
        by_cases hb : b2 = f.key.bucketInstanceId
        · rw [if_pos hb] at hi
          rcases List.mem_append.mp hi with hi | hi
          · exact List.mem_cons_of_mem _ (hinv _ _ hi)
          · rw [List.mem_singleton.mp hi, hb]
            exact List.mem_cons_self _ _
        · rw [if_neg hb] at hi
          exact List.mem_cons_of_mem _ (hinv _ _ hi)
      · intro b2
        by_cases hb : b2 = f.key.bucketInstanceId
        · rw [if_pos hb]
          refine (hnodup _).append (List.nodup_singleton _) ?_
          intro a ha hb2
          rw [List.mem_singleton] at hb2
          subst hb2
          rw [hb] at ha
          exact h1 (hinv _ _ ha)
        · rw [if_neg hb]
          exact hnodup b2
    · exact ih seen result hinv hnodup b

/-- C8: `queryRenderedSymbols` returns the empty mapping whenever the query
polygon has no points or both grids hold no keys (the short-circuit before
the bounding-box computation); and for every query, every bucket's feature
list in the result is duplicate-free. -/
theorem queryRenderedSymbols_short_circuit_and_nodup :
    (∀ (c : CollisionIndex) (q : List Point),
      q = [] ∨ (c.grid.keysLength = 0 ∧ c.ignoredGrid.keysLength = 0) →
      c.queryRenderedSymbols q = fun _ => []) ∧
    (∀ (c : CollisionIndex) (q : List Point) (b : ℕ),
      (c.queryRenderedSymbols q b).Nodup) := by
  constructor
  · intro c q h
    simp only [CollisionIndex.queryRenderedSymbols]
    rw [if_pos h]
  · intro c q b
    simp only [CollisionIndex.queryRenderedSymbols]
    split_ifs with h
    · exact List.nodup_nil
    · exact collectQueryResults_nodup _ _ [] (fun _ => [])
        (fun b2 i hi => absurd hi (List.not_mem_nil _)) (fun _ => List.nodup_nil) b

/-- Witness for C8: the empty polygon short-circuits, a nonempty polygon on
empty grids short-circuits, and a concrete query against the scenario index
has a duplicate-free bucket list. -/
theorem queryRenderedSymbols_short_circuit_and_nodup_witness :
    emptyIndex800.queryRenderedSymbols [] = (fun _ => []) ∧
    emptyIndex800.queryRenderedSymbols [⟨1, 1⟩] = (fun _ => []) ∧
    (scenarioIndex.queryRenderedSymbols [⟨1, 1⟩] 1).Nodup :=
  ⟨queryRenderedSymbols_short_circuit_and_nodup.1 emptyIndex800 [] (Or.inl rfl),
   queryRenderedSymbols_short_circuit_and_nodup.1 emptyIndex800 [⟨1, 1⟩] (Or.inr ⟨rfl, rfl⟩),
   queryRenderedSymbols_short_circuit_and_nodup.2 scenarioIndex [⟨1, 1⟩] 1⟩

/-- Magnitudes are nonnegative. -/
theorem Point.mag_nonneg (p : Point) : 0 ≤ p.mag := Real.sqrt_nonneg _

/-- Magnitude of a scalar-divided point. -/
theorem Point.mag_div_eq (p : Point) (k : ℝ) : (p.div k).mag = p.mag / |k| := by
  unfold Point.div Point.mag
  have h : p.x / k * (p.x / k) + p.y / k * (p.y / k) = (p.x * p.x + p.y * p.y) / k ^ 2 := by
    ring
  rw [h, Real.sqrt_div (add_nonneg (mul_self_nonneg _) (mul_self_nonneg _)),
    Real.sqrt_sq_eq_abs]

/-- A zero-magnitude difference means equal points. -/
theorem Point.eq_of_sub_mag_zero {p q : Point} (h : (p.sub q).mag = 0) : p = q := by
  have hnn : 0 ≤ (p.x - q.x) * (p.x - q.x) + (p.y - q.y) * (p.y - q.y) :=
    add_nonneg (mul_self_nonneg _) (mul_self_nonneg _)
  have h0 : (p.x - q.x) * (p.x - q.x) + (p.y - q.y) * (p.y - q.y) = 0 :=
    (Real.sqrt_eq_zero hnn).mp h
  have hx : p.x - q.x = 0 := mul_self_eq_zero.mp
    (le_antisymm (by nlinarith [mul_self_nonneg (p.y - q.y)]) (mul_self_nonneg _))
  have hy : p.y - q.y = 0 := mul_self_eq_zero.mp
    (le_antisymm (by nlinarith [mul_self_nonneg (p.x - q.x)]) (mul_self_nonneg _))
  obtain ⟨px, py⟩ := p
  obtain ⟨qx, qy⟩ := q
  simp only [Point.mk.injEq]
  constructor <;> [linarith; linarith]

/-- Adding back the full scaled direction lands on the segment end. -/
theorem point_add_div_mult_cancel (s e : Point) (k : ℝ) (hk : k ≠ 0) :
    s.add (((e.sub s).div k).mult k) = e := by
  obtain ⟨sx, sy⟩ := s
  obtain ⟨ex, ey⟩ := e
  simp only [Point.sub, Point.div, Point.mult, Point.add, Point.mk.injEq]
  constructor <;> field_simp

/-- Consecutive evenly-spaced circle positions on a segment are one
`circleToCircle` step apart. -/
theorem segCirclePos_dist (radius : ℝ) (s e : Point) (i : ℕ) :
    (segCirclePos radius s e i).dist (segCirclePos radius s e (i + 1)) =
      ((e.sub s).div (((circlesInSegment radius s e : ℤ) : ℝ) + 1)).mag := by
  simp only [Point.dist, segCirclePos, Point.add, Point.sub, Point.mult, Point.div, Point.mag]
  congr 1
  push_cast
  ring

/-- The even spacing of a segment's circles never exceeds `2 * radius`. -/
theorem segSpacing_le (radius : ℝ) (hr : 0 < radius) (s e : Point) :
    ((e.sub s).div (((circlesInSegment radius s e : ℤ) : ℝ) + 1)).mag ≤ 2 * radius := by
  rw [Point.mag_div_eq]
  have hL0 : 0 ≤ (e.sub s).mag := Point.mag_nonneg _
  have hceil : circlesInSegment radius s e = ⌈(e.sub s).mag / (2 * radius)⌉ - 1 := rfl
  have hcnn : (0 : ℤ) ≤ ⌈(e.sub s).mag / (2 * radius)⌉ := Int.ceil_nonneg (by positivity)
  rcases eq_or_lt_of_le hcnn with hzero | hpos
  · rw [hceil, ← hzero]
    push_cast
    norm_num
    positivity
  · have hk : (((circlesInSegment radius s e : ℤ) : ℝ) + 1) =
        ((⌈(e.sub s).mag / (2 * radius)⌉ : ℤ) : ℝ) := by
      rw [hceil]
      push_cast
      ring
    have hkpos : (0 : ℝ) < ((⌈(e.sub s).mag / (2 * radius)⌉ : ℤ) : ℝ) := by
      exact_mod_cast hpos
    rw [hk, abs_of_pos hkpos, div_le_iff hkpos]
    have h2r : (0 : ℝ) < 2 * radius := by positivity
    have hle := (div_le_iff h2r).mp (Int.le_ceil ((e.sub s).mag / (2 * radius)))
    nlinarith [hle]

/-- The segment's circle position at index 0 is the segment start. -/
theorem segCirclePos_zero (radius : ℝ) (s e : Point) : segCirclePos radius s e 0 = s := by
  simp only [segCirclePos, Point.add, Point.mult, Point.div, Point.sub]
  norm_num

/-- The segment's circle position at index `circlesInSegment + 1` is the
segment end. -/
theorem segCirclePos_last (radius : ℝ) (hr : 0 < radius) (s e : Point) :
    segCirclePos radius s e ((circlesInSegment radius s e).toNat + 1) = e := by
  have hL0 : 0 ≤ (e.sub s).mag := Point.mag_nonneg _
  rcases eq_or_lt_of_le hL0 with hL | hL
  · have he : e = s := Point.eq_of_sub_mag_zero hL.symm
    subst he
    simp only [segCirclePos, Point.sub, Point.div, Point.mult, Point.add]
    norm_num
  · have hc1 : (0 : ℤ) < ⌈(e.sub s).mag / (2 * radius)⌉ :=
      Int.ceil_pos.mpr (by positivity)
    have hcnn : (0 : ℤ) ≤ circlesInSegment radius s e := by
      unfold circlesInSegment
      omega
    have hcast : (((circlesInSegment radius s e).toNat + 1 : ℕ) : ℝ) =
        ((circlesInSegment radius s e : ℤ) : ℝ) + 1 := by
      have h2 := congrArg (fun z : ℤ => (z : ℝ)) (Int.toNat_of_nonneg hcnn)
      push_cast at h2
      push_cast
      rw [h2]
    have hkne : ((circlesInSegment radius s e : ℤ) : ℝ) + 1 ≠ 0 := by
      have hge : (0 : ℝ) ≤ ((circlesInSegment radius s e : ℤ) : ℝ) := by exact_mod_cast hcnn
      linarith
    unfold segCirclePos
    rw [hcast]
    exact point_add_div_mult_cancel s e _ hkne

/-- The segment-end circle is always placed. -/
theorem addSegmentCircles_end_mem (radius : ℝ) (s e : Point) (last : Option Point) :
    (e, radius) ∈ addSegmentCircles radius s e last := by
  simp [addSegmentCircles]

/-- Each of the `circlesInSegment` interior circles is placed at its
evenly-spaced position. -/
theorem addSegmentCircles_interior_mem (radius : ℝ) (s e : Point) (last : Option Point)
    (i : ℕ) (h1 : 1 ≤ i) (h2 : i ≤ (circlesInSegment radius s e).toNat) :
    (segCirclePos radius s e i, radius) ∈ addSegmentCircles radius s e last := by
  apply List.mem_append_right
  apply List.mem_map.mpr
  exact ⟨i - 1, List.mem_range.mpr (by omega), by rw [Nat.sub_add_cancel h1]⟩

/-- C3: the radius used by `placeCollisionCircles` is `10 ×
perspectiveRatio` of the projected anchor, and for every clipped segment
(for any positive radius): the evenly-spaced positions start at the segment
start (`i = 0`) and finish at the segment end (`i = circlesInSegment + 1`);
the segment-end circle is always placed and each of the `circlesInSegment =
ceil(segmentLength / (2 × radius)) − 1` interior positions `i = 1 ..
circlesInSegment` is placed; and consecutive positions are separated by at
most `2 × radius`. -/
theorem placeCollisionCircles_segment_spacing :
    (∀ (c : CollisionIndex) (m : Mat4) (ax ay : ℝ),
      c.collisionCircleRadius m ax ay = 10 * (c.projectAnchor m ax ay).perspectiveRatio) ∧
    ∀ (radius : ℝ), 0 < radius →
    ∀ (startPoint endPoint : Point) (lastPlacedCircle : Option Point),
      segCirclePos radius startPoint endPoint 0 = startPoint ∧
      segCirclePos radius startPoint endPoint
        ((circlesInSegment radius startPoint endPoint).toNat + 1) = endPoint ∧
      (endPoint, radius) ∈ addSegmentCircles radius startPoint endPoint lastPlacedCircle ∧
      (∀ i : ℕ, 1 ≤ i → i ≤ (circlesInSegment radius startPoint endPoint).toNat →
        (segCirclePos radius startPoint endPoint i, radius) ∈
          addSegmentCircles radius startPoint endPoint lastPlacedCircle) ∧
      (∀ i : ℕ,
        (segCirclePos radius startPoint endPoint i).dist
          (segCirclePos radius startPoint endPoint (i + 1)) ≤ 2 * radius) := by
  refine ⟨fun c m ax ay => rfl, ?_⟩
  intro radius hr s e last
  refine ⟨segCirclePos_zero radius s e, segCirclePos_last radius hr s e,
    addSegmentCircles_end_mem radius s e last,
    fun i h1 h2 => addSegmentCircles_interior_mem radius s e last i h1 h2,
    fun i => ?_⟩
  rw [segCirclePos_dist]
  exact segSpacing_le radius hr s e

/-- The concrete segment `(0,0)–(30,0)` at radius 10 has `ceil(30/20) − 1 =
1` interior circle. -/
theorem circlesInSegment_30_eval :
    (circlesInSegment 10 ⟨0, 0⟩ ⟨30, 0⟩).toNat = 1 := by
  have h900 : Real.sqrt (900 : ℝ) = 30 := by
    rw [show (900 : ℝ) = 30 ^ 2 by norm_num, Real.sqrt_sq (by norm_num : (0 : ℝ) ≤ 30)]
  have hceil : ⌈(3 : ℝ) / 2⌉ = (2 : ℤ) := by
    rw [Int.ceil_eq_iff]
    norm_num
  norm_num [circlesInSegment, Point.sub, Point.mag, h900, hceil]

/-- Witness for C3 on the segment from `(0, 0)` to `(30, 0)` with radius 10:
the single interior circle is placed and consecutive positions are at most
20 apart. -/
theorem placeCollisionCircles_segment_spacing_witness :
    (0 : ℝ) < 10 ∧
    (segCirclePos 10 ⟨0, 0⟩ ⟨30, 0⟩ 1, (10 : ℝ)) ∈
      addSegmentCircles 10 ⟨0, 0⟩ ⟨30, 0⟩ none ∧
    (segCirclePos 10 ⟨0, 0⟩ ⟨30, 0⟩ 0).dist (segCirclePos 10 ⟨0, 0⟩ ⟨30, 0⟩ 1) ≤ 2 * 10 := by
  have h := placeCollisionCircles_segment_spacing.2 10 (by norm_num) ⟨0, 0⟩ ⟨30, 0⟩ none
  exact ⟨by norm_num,
    h.2.2.2.1 1 le_rfl (by rw [circlesInSegment_30_eval]),
    h.2.2.2.2 0⟩

/-- If a collision was already detected, or some circle of the remaining
list hit-tests positive, the per-circle scan of `placeCollisionCircles`
(with `allowOverlap = false`) ends with empty circles — through the early
exit when `showCollisionCircles` is false, through the remembered
`collisionDetected` flag when it is true. -/
theorem circleScan_empty_of_collision (c : CollisionIndex) (showCC : Bool)
    (pred : GridKey → Prop) :
    ∀ (l : List (Point × ℝ)) (placed : List ℝ) (cd inGrid off : Prop),
      (cd ∨ ∃ pr ∈ l, c.grid.hitTestCircle (pr.1.x + viewportPadding)
        (pr.1.y + viewportPadding) pr.2 pred) →
      (c.circleScan false showCC pred l placed cd inGrid off).circles = [] := by
  intro l
  induction l with
  | nil =>
    intro placed cd inGrid off h
    rcases h with h | ⟨pr, hpr, -⟩
    · simp only [CollisionIndex.circleScan]
      rw [if_pos (Or.inl h)]
    · exact absurd hpr (List.not_mem_nil _)
  | cons hd tl ih =>
    intro placed cd inGrid off h
    obtain ⟨pt, r⟩ := hd
    simp only [CollisionIndex.circleScan]
    by_cases hhit : c.grid.hitTestCircle (pt.x + viewportPadding) (pt.y + viewportPadding) r pred
    · rw [if_pos ⟨rfl, hhit⟩]
      cases showCC with
      | false => rw [if_pos rfl]
      | true =>
        rw [if_neg (by simp)]
        exact ih _ True _ _ (Or.inl trivial)
    · rw [if_neg (fun hx => hhit hx.2)]
      refine ih _ _ _ _ ?_
      rcases h with h | ⟨pr, hpr, hc⟩
      · exact Or.inl h
      · rcases List.mem_cons.mp hpr with heq | hpr2
        · rw [heq] at hc
          exact absurd hc hhit
        · exact Or.inr ⟨pr, hpr2, hc⟩

/-- C4: a `placeCollisionCircles` call with `allowOverlap = false` in which
at least one circle of the built chain intersects an occlusion-grid entry
matching the group predicate returns an empty circles array — for both
values of `showCollisionCircles` (debug visualization only suppresses the
early exit, not the rejection). -/
theorem placeCollisionCircles_collision_empty :
    ∀ (c : CollisionIndex) (firstAndLastGlyph : Option (List Point × List Point))
      (anchorX anchorY : ℝ) (posMatrix : Mat4) (showCC : Bool) (pred : GridKey → Prop),
      (∃ pr ∈ c.placedChain firstAndLastGlyph anchorX anchorY posMatrix,
        c.grid.hitTestCircle (pr.1.x + viewportPadding) (pr.1.y + viewportPadding)
          pr.2 pred) →
      (c.placeCollisionCircles false firstAndLastGlyph anchorX anchorY posMatrix
        showCC pred).circles = [] := by
  intro c fnl ax ay m showCC pred h
  cases fnl with
  | none =>
    obtain ⟨pr, hpr, -⟩ := h
    simp only [CollisionIndex.placedChain] at hpr
    exact absurd hpr (List.not_mem_nil _)
  | some fl =>
    obtain ⟨first, last⟩ := fl
    simp only [CollisionIndex.placeCollisionCircles]
    apply circleScan_empty_of_collision
    refine Or.inr ?_
    simpa only [CollisionIndex.placedChain, CollisionIndex.collisionCircleRadius] using h

/-- Evaluation of `clipLine` on the fully-visible concrete segment of the
circle-collision scenario. -/
theorem clipLine_circleTest_eval :
    clipLine ⟨10, 10⟩ ⟨40, 10⟩ ⟨0, 0⟩ ⟨800, 600⟩ = some (⟨10, 10⟩, ⟨40, 10⟩) := by
  have hs : computeRegion ⟨10, 10⟩ ⟨0, 0⟩ ⟨800, 600⟩ = 0 := by
    norm_num [computeRegion]
  have he : computeRegion ⟨40, 10⟩ ⟨0, 0⟩ ⟨800, 600⟩ = 0 := by
    norm_num [computeRegion]
  simp only [clipLine]
  rw [if_pos ⟨hs, he⟩]

/-- The first circle of the scenario chain sits at the clipped segment's
start `(10, 10)` with radius 10. -/
theorem circleTestChain_head :
    (Point.mk 10 10, (10 : ℝ)) ∈
      circleTestIndex.placedChain circleTestGlyphs 0 0 Mat4.identity := by
  have hrad : circleTestIndex.collisionCircleRadius Mat4.identity 0 0 = 10 := by
    norm_num [CollisionIndex.collisionCircleRadius, CollisionIndex.projectAnchor,
      xyTransformMat4, Mat4.identity, circleTestIndex, transform800]
  have htr : circleTestIndex.transform = transform800 := rfl
  have hpath : projectedPathOf [⟨0, 0⟩, ⟨10, 10⟩] [⟨0, 0⟩, ⟨40, 10⟩] =
      ([⟨10, 10⟩, ⟨40, 10⟩] : List Point) := rfl
  simp only [CollisionIndex.placedChain, circleTestGlyphs, hrad, htr, transform800, hpath]
  simp only [collectCircles, clipLine_circleTest_eval]
  simp [addSegmentCircles]

/-- Witness for C4: on the index holding box `(105, 105, 115, 115)`, the
chain circle at padded-grid `(110, 110)` with radius 10 collides, and the
placement returns empty circles for both values of `showCollisionCircles`. -/
theorem placeCollisionCircles_collision_empty_witness :
    (∃ pr ∈ circleTestIndex.placedChain circleTestGlyphs 0 0 Mat4.identity,
      circleTestIndex.grid.hitTestCircle (pr.1.x + viewportPadding)
        (pr.1.y + viewportPadding) pr.2 (fun _ => True)) ∧
    (circleTestIndex.placeCollisionCircles false circleTestGlyphs 0 0 Mat4.identity
      false (fun _ => True)).circles = [] ∧
    (circleTestIndex.placeCollisionCircles false circleTestGlyphs 0 0 Mat4.identity
      true (fun _ => True)).circles = [] := by
  have hhit : circleTestIndex.grid.hitTestCircle ((10 : ℝ) + viewportPadding)
      ((10 : ℝ) + viewportPadding) 10 (fun _ => True) := by
    refine ⟨⟨⟨2, 0, 0⟩, .box 105 105 115 115⟩, ?_, trivial, ?_⟩
    · simp [circleTestIndex, Grid.empty, Grid.insert]
    · norm_num [GridGeom.intersectsCircle, circleBoxIntersect, pointBoxDistSq,
        viewportPadding, max_def]
  have hex : ∃ pr ∈ circleTestIndex.placedChain circleTestGlyphs 0 0 Mat4.identity,
      circleTestIndex.grid.hitTestCircle (pr.1.x + viewportPadding)
        (pr.1.y + viewportPadding) pr.2 (fun _ => True) :=
    ⟨(Point.mk 10 10, (10 : ℝ)), circleTestChain_head, hhit⟩
  exact ⟨hex,
    placeCollisionCircles_collision_empty circleTestIndex circleTestGlyphs 0 0
      Mat4.identity false (fun _ => True) hex,
    placeCollisionCircles_collision_empty circleTestIndex circleTestGlyphs 0 0
      Mat4.identity true (fun _ => True) hex⟩
